import Mathlib

/-!
Verification development for the session & delegated-authorization
orchestration layer of the restaurant-ai-agent repository.

The definitions below are a shallow embedding of the TypeScript sources:
  * `server/src/services/simpleOAuthProvider.ts`
    (class `AuthorizationCodeOAuthProvider`),
  * `agentOAuthProvider.ts` (class `AgentOAuthProvider`),
  * `geminiService.ts` (class `GeminiService`: session map, OAuth status
    checks, session creation, OAuth callback handling, chat flow, error
    classification and session cleanup).

Mutable class fields become fields of Lean structures; methods become
state-passing functions.  Network and transport effects (fetch, MCP
handshake, Gemini sendMessage) are parameters: each operation takes the
outcome of the corresponding I/O action as an explicit argument (an
oracle), and the function computes exactly what the TypeScript code does
with that outcome.  JavaScript truthiness on optional strings / numbers
is modelled explicitly (`truthyStr`, `truthyInt`).  Times are `Int`
milliseconds (`Date.now()` values).
-/

/-- JavaScript truthiness of an optional string: `undefined` and the
empty string are falsy. -/
def truthyStr : Option String → Bool
  | none => false
  | some s => s ≠ ""

/-- JavaScript truthiness of an optional number: `undefined` and `0` are
falsy. -/
def truthyInt : Option Int → Bool
  | none => false
  | some n => n ≠ 0

/-- Substring test (`String.prototype.includes`), on character lists. -/
def charsHasSub (sl pl : List Char) : Bool :=
  (List.range (sl.length + 1)).any fun i => decide ((sl.drop i).take pl.length = pl)

/-- Lower-casing (`String.prototype.toLowerCase`) as a character map —
the messages the service matches against are ASCII. -/
def lowerChars (s : String) : List Char :=
  s.data.map Char.toLower

/-- OAuth token set (`OAuthTokens` of the MCP SDK, as the code uses it).
`access_token` is optional here because `GeminiService` invalidates
credentials by calling `saveTokens(undefined as any)`, and
`hasValidTokens` re-checks the field's truthiness.  `obtained_at` is the
untyped `(tokens as any).obtained_at` slot the agent provider attaches
when it acquires tokens. -/
structure OAuthTokens where
  access_token : Option String
  token_type : String
  expires_in : Option Int
  refresh_token : Option String
  scope : Option String
  obtained_at : Option Int
  deriving Repr, DecidableEq

/-- State of `AuthorizationCodeOAuthProvider`
(server/src/services/simpleOAuthProvider.ts). -/
structure AuthorizationCodeOAuthProvider where
  clientId : Option String
  clientSecret : Option String
  savedTokens : Option OAuthTokens
  codeVerifierSlot : Option String
  pendingAuthorizationUrl : Option String
  sessionId : Option String
  deriving Repr, DecidableEq

namespace AuthorizationCodeOAuthProvider

/-- Method `saveTokens` — overwrites the cached token set.  The argument
is optional because `GeminiService.handleAuthenticationError` passes
`undefined as any` to invalidate credentials. -/
def saveTokens (p : AuthorizationCodeOAuthProvider) (t : Option OAuthTokens) :
    AuthorizationCodeOAuthProvider :=
  { p with savedTokens := t }

/-- Method `hasValidTokens` (simpleOAuthProvider.ts lines 139-155):
`false` when no tokens; else requires a truthy `access_token`; when
`expires_in` is truthy it returns `expires_in > 0` (the raw stored
counter — the code comments "For simplicity, assume token is valid if
expires_in > 0"); otherwise `true`. -/
def hasValidTokens (p : AuthorizationCodeOAuthProvider) : Bool :=
  match p.savedTokens with
  | none => false
  | some t =>
    if truthyStr t.access_token then
      if truthyInt t.expires_in then
        decide (t.expires_in.getD 0 > 0)
      else
        true
    else
      false

/-- Method `clearPendingAuthorizationUrl`. -/
def clearPendingAuthorizationUrl (p : AuthorizationCodeOAuthProvider) :
    AuthorizationCodeOAuthProvider :=
  { p with pendingAuthorizationUrl := none }

/-- Method `redirectToAuthorization` — records the authorization URL the
transport asks the provider to visit (the pending-authorization slot). -/
def redirectToAuthorization (p : AuthorizationCodeOAuthProvider) (url : String) :
    AuthorizationCodeOAuthProvider :=
  { p with pendingAuthorizationUrl := some url }

end AuthorizationCodeOAuthProvider

/-- Outcome of the token-endpoint `fetch` in `exchangeCodeForTokens`:
HTTP status, and the result of `OAuthTokensSchema.parse` on the body
(`none` = the body does not parse as a token set, so `parse` throws). -/
structure TokenHttpResponse where
  ok : Bool
  status : Nat
  parsedTokens : Option OAuthTokens
  deriving Repr, DecidableEq

/-- Errors `exchangeCodeForTokens` can throw. -/
inductive TokenExchangeError where
  | missingEndpoint
  | httpError (status : Nat)
  | malformedResponse
  deriving Repr, DecidableEq

/-- Human-readable message of a `TokenExchangeError` (the `Error`
messages thrown by `exchangeCodeForTokens`). -/
def TokenExchangeError.message : TokenExchangeError → String
  | .missingEndpoint => "Token endpoint is required for token exchange"
  | .httpError s => "Token exchange failed: " ++ toString s
  | .malformedResponse => "Malformed token response"

/-- Method `exchangeCodeForTokens` (simpleOAuthProvider.ts lines
219-264).  Throws when the endpoint is missing, on a non-ok HTTP
response, or on a malformed body; on success calls `saveTokens` and
returns the parsed tokens.  Note it does NOT touch
`pendingAuthorizationUrl`. -/
def exchangeCodeForTokens (p : AuthorizationCodeOAuthProvider)
    (tokenEndpoint : Option String) (_code : String) (resp : TokenHttpResponse) :
    Except TokenExchangeError (OAuthTokens × AuthorizationCodeOAuthProvider) :=
  match tokenEndpoint with
  | none => .error .missingEndpoint
  | some _ =>
    if resp.ok then
      match resp.parsedTokens with
      | none => .error .malformedResponse
      | some tokens => .ok (tokens, p.saveTokens (some tokens))
    else
      .error (.httpError resp.status)

/-!
Agent identity provider (`agentOAuthProvider.ts`, class
`AgentOAuthProvider`).  `inFlight` models whether `_agentTokenPromise`
is set (a token acquisition is in flight); `started` is a ghost counter
of how many acquisitions have been initiated, used to state the
single-flight property.
-/

/-- Method `AgentOAuthProvider._isTokenValid` (lines 125-137).
`cachedMatch` models the `this._tokens === tokens` identity test: when
it holds the code reads `(this._tokens as any).obtained_at`, otherwise
it falls back to `Date.now()`.  When `obtained_at` is absent on a cached
token the JavaScript arithmetic yields `NaN` and the `<` comparison is
false, hence the `none => false` branch. -/
def agentIsTokenValid (cachedMatch : Bool) (tokens : OAuthTokens) (now : Int) : Bool :=
  if truthyStr tokens.access_token then
    if truthyInt tokens.expires_in then
      match (if cachedMatch then tokens.obtained_at else some now) with
      | none => false
      | some obtainedAt =>
        decide (now < obtainedAt + tokens.expires_in.getD 0 * 1000 - 60000)
    else
      true
  else
    false

/-- State of `AgentOAuthProvider` relevant to token caching and the
single-flight guard. -/
structure AgentProviderState where
  tokensCache : Option OAuthTokens
  inFlight : Bool
  started : Nat
  deriving Repr, DecidableEq

/-- Method `AgentOAuthProvider.tokens` (lines 96-115): return cached
tokens when valid; otherwise, when no acquisition is in flight, start
one (set `_agentTokenPromise`, here `inFlight`, and bump the ghost
counter) and return `undefined`; when one is already in flight, return
`undefined` without starting anything. -/
def agentTokensCall (st : AgentProviderState) (now : Int) :
    Option OAuthTokens × AgentProviderState :=
  match st.tokensCache with
  | some t =>
    if agentIsTokenValid true t now then
      (some t, st)
    else if st.inFlight then
      (none, st)
    else
      (none, { st with inFlight := true, started := st.started + 1 })
  | none =>
    if st.inFlight then
      (none, st)
    else
      (none, { st with inFlight := true, started := st.started + 1 })

/-- Completion of an in-flight acquisition: on success
`_exchangeAgentCodeForTokens` calls `saveTokens`; the `.finally` handler
clears `_agentTokenPromise` either way. -/
def agentAcquisitionComplete (st : AgentProviderState) (result : Option OAuthTokens) :
    AgentProviderState :=
  { st with
    tokensCache := match result with | some t => some t | none => st.tokensCache
    inFlight := false }

/-- Fold a sequence of `tokens()` calls (at the given `Date.now()`
values) over a provider state, keeping only the state. -/
def agentTokensCalls (st : AgentProviderState) (nows : List Int) : AgentProviderState :=
  nows.foldl (fun s now => (agentTokensCall s now).2) st

/-!
GeminiService (`geminiService.ts`).  The session map `chatSessions` is
an association list with the `Map` discipline (insert-or-replace per
key).  A `CustomClient` is tracked by whether its MCP connection was
ever established and how many times `close()` was called on it; a
`Chat` instance records whether it was created with tools (i.e. with a
connected MCP client).
-/

/-- An MCP `CustomClient` handle. -/
structure CustomClient where
  connected : Bool
  closeCount : Nat
  deriving Repr, DecidableEq

/-- The fresh client `new CustomClient({...})` before any connection. -/
def freshClient : CustomClient := { connected := false, closeCount := 0 }

/-- Mark a client's `close()` call. -/
def closeClient (c : CustomClient) : CustomClient :=
  { c with closeCount := c.closeCount + 1 }

/-- A Gemini `Chat` instance; `hasTools` records whether
`createChatInstance` received a connected client. -/
structure Chat where
  hasTools : Bool
  deriving Repr, DecidableEq

/-- One entry of the `chatSessions` map (`ChatSessionData`). -/
structure ChatSessionData where
  session : Option Chat
  client : Option CustomClient
  oauthProvider : Option AuthorizationCodeOAuthProvider
  lastActivity : Int
  deriving Repr, DecidableEq

/-- Map lookup (`Map.get`). -/
def mapGet (m : List (String × ChatSessionData)) (k : String) : Option ChatSessionData :=
  (m.find? (fun e => e.1 = k)).map (·.2)

/-- Map insert-or-replace (`Map.set`). -/
def mapSet (m : List (String × ChatSessionData)) (k : String) (v : ChatSessionData) :
    List (String × ChatSessionData) :=
  if (m.find? (fun e => e.1 = k)).isSome then
    m.map (fun e => if e.1 = k then (k, v) else e)
  else
    m ++ [(k, v)]

/-- In-place mutation of the provider object shared between a map entry
and local code (JavaScript aliasing): replace the provider stored under
key `k`, keeping every other field of the entry. -/
def mapSetProvider (m : List (String × ChatSessionData)) (k : String)
    (p : AuthorizationCodeOAuthProvider) : List (String × ChatSessionData) :=
  m.map (fun e => if e.1 = k then (e.1, { e.2 with oauthProvider := some p }) else e)

/-- Outcome of one MCP connect attempt (`client.connect(transport)`):
either the handshake succeeds, or it fails — and on failure the
transport's auth layer may have called `redirectToAuthorization` on the
provider, recording an authorization URL in its pending slot. -/
inductive ConnectOutcome where
  | success
  | failure (recordedUrl : Option String)
  deriving Repr, DecidableEq

/-- Service state of `GeminiService`: the session map and the parts of
`oauthConfig` the modelled operations read.  `sessionTimeout` is
`SESSION_TIMEOUT_MS` (24h) in production but kept as a field, exactly as
in the class. -/
structure GeminiService where
  chatSessions : List (String × ChatSessionData)
  oauthClientId : Option String
  oauthTokenEndpoint : Option String
  sessionTimeout : Int
  deriving Repr, DecidableEq

/-- Constant `WELCOME_MESSAGE`. -/
def WELCOME_MESSAGE : String :=
  "👋 Hi there! Before we continue, please take a moment to authenticate."

/-- Constant `AUTHENTICATION_PROMPT`. -/
def AUTHENTICATION_PROMPT : String :=
  "Please authenticate with our restaurant system to continue."

/-- Method `createOAuthProviderForSession`: `undefined` when no
`clientId` is configured, else a fresh provider whose `state()` is the
session id. -/
def createOAuthProviderForSession (svc : GeminiService) (sessionId : String) :
    Option AuthorizationCodeOAuthProvider :=
  match svc.oauthClientId with
  | none => none
  | some cid =>
    some { clientId := some cid, clientSecret := none, savedTokens := none,
           codeVerifierSlot := none, pendingAuthorizationUrl := none,
           sessionId := some sessionId }

/-- Method `createMCPClient` (geminiService.ts lines 583-614): attempt
`client.connect(transport)`.  On success the connected client is
returned; on failure the error is caught, logged, and `undefined` is
returned — the raw connection error is not rethrown.  The provider is
returned alongside because a failed handshake may have recorded a
pending authorization URL on it (transport side effect). -/
def createMCPClient (client : CustomClient)
    (provider : Option AuthorizationCodeOAuthProvider) (outcome : ConnectOutcome) :
    Option CustomClient × Option AuthorizationCodeOAuthProvider :=
  match outcome with
  | .success => (some { client with connected := true }, provider)
  | .failure recordedUrl =>
    (none,
     provider.map fun p =>
       match recordedUrl with
       | some u => p.redirectToAuthorization u
       | none => p)

/-- Result of `getOAuthStatus`. -/
structure OAuthStatus where
  required : Bool
  authorizationUrl : Option String
  deriving Repr, DecidableEq

/-- Method `getOAuthStatus` (geminiService.ts lines 665-691): not
required when the provider already has valid tokens; else attempt a
throwaway connection; when it succeeds, not required; when it fails,
read the provider's pending authorization URL and report
`required := !!authUrl` — so a failure that recorded no URL (and with no
URL left from an earlier attempt) yields `required = false` and the
connection error is swallowed. -/
def getOAuthStatus (p : AuthorizationCodeOAuthProvider) (outcome : ConnectOutcome) :
    OAuthStatus × AuthorizationCodeOAuthProvider :=
  if p.hasValidTokens then
    ({ required := false, authorizationUrl := none }, p)
  else
    match outcome with
    | .success => ({ required := false, authorizationUrl := none }, p)
    | .failure recordedUrl =>
      let p' := match recordedUrl with
        | some u => p.redirectToAuthorization u
        | none => p
      ({ required := p'.pendingAuthorizationUrl.isSome,
         authorizationUrl := p'.pendingAuthorizationUrl }, p')

/-- Method `createChatInstance`: a `Chat` with tools iff a connected
client was supplied. -/
def createChatInstance (connectedClient : Option CustomClient) : Chat :=
  { hasTools := connectedClient.isSome }

/-- Result type `CreateChatSessionResult`. -/
inductive CreateChatSessionResult where
  | chat (session : Chat)
  | oauthRequired (authorizationUrl : String) (message : String)
  deriving Repr, DecidableEq

/-- Method `buildChatSessionResponse` (geminiService.ts lines 720-737):
connect a fresh client (possibly failing), build the chat instance with
whatever came back, and store the entry — even when the connection
failed, in which case `client` is `undefined` and the chat has no
tools. -/
def buildChatSessionResponse (svc : GeminiService) (sessionId : String)
    (provider : Option AuthorizationCodeOAuthProvider) (now : Int)
    (outcome : ConnectOutcome) : CreateChatSessionResult × GeminiService :=
  let res := createMCPClient freshClient provider outcome
  let chatSession := createChatInstance res.1
  let data : ChatSessionData :=
    { session := some chatSession, client := res.1, oauthProvider := res.2,
      lastActivity := now }
  (.chat chatSession, { svc with chatSessions := mapSet svc.chatSessions sessionId data })

/-- Method `buildOAuthRequiredResponse` (geminiService.ts lines
696-715): store the session with a fresh (never connected) client, no
chat instance, and the provider; reply with the authorization URL and
the welcome message. -/
def buildOAuthRequiredResponse (svc : GeminiService) (sessionId : String)
    (provider : AuthorizationCodeOAuthProvider) (authorizationUrl : String) (now : Int) :
    CreateChatSessionResult × GeminiService :=
  let data : ChatSessionData :=
    { session := none, client := some freshClient, oauthProvider := some provider,
      lastActivity := now }
  (.oauthRequired authorizationUrl WELCOME_MESSAGE,
   { svc with chatSessions := mapSet svc.chatSessions sessionId data })

/-- Method `createChatSession` (geminiService.ts lines 648-660):
create a per-session provider; when one exists, check OAuth status
(with one connect attempt, `statusOutcome`); when authorization is
required, store and answer the oauth-required response; otherwise build
a normal chat session (second connect attempt, `connectOutcome`). -/
def createChatSession (svc : GeminiService) (sessionId : String) (now : Int)
    (statusOutcome connectOutcome : ConnectOutcome) :
    CreateChatSessionResult × GeminiService :=
  match createOAuthProviderForSession svc sessionId with
  | some p =>
    match getOAuthStatus p statusOutcome with
    | (st, p2) =>
      if st.required then
        buildOAuthRequiredResponse svc sessionId p2 (st.authorizationUrl.getD "") now
      else
        buildChatSessionResponse svc sessionId (some p2) now connectOutcome
  | none => buildChatSessionResponse svc sessionId none now connectOutcome

/-- The `ERROR_PATTERNS` keyword lists (geminiService.ts lines
360-367). -/
def UNAUTHORIZED_PATTERNS : List String :=
  ["unauthorized", "401", "authentication required", "invalid token", "token expired"]

/-- Keywords of `ERROR_PATTERNS.OAUTH_RELATED`. -/
def OAUTH_RELATED_PATTERNS : List String := ["auth", "unauthorized", "401"]

/-- Keywords of `ERROR_PATTERNS.GEMINI_OVERLOAD`. -/
def GEMINI_OVERLOAD_PATTERNS : List String :=
  ["overloaded", "503", "unavailable", "service unavailable", "resource exhausted"]

/-- Keywords of `ERROR_PATTERNS.RATE_LIMIT`. -/
def RATE_LIMIT_PATTERNS : List String :=
  ["rate limit", "429", "quota", "too many requests"]

/-- Keywords of `ERROR_PATTERNS.BAD_REQUEST`. -/
def BAD_REQUEST_PATTERNS : List String := ["400", "bad request", "invalid request"]

/-- Result of `classifyError`. -/
structure ErrorKinds where
  isUnauthorized : Bool
  isOAuthRelated : Bool
  isGeminiOverload : Bool
  isRateLimit : Bool
  isBadRequest : Bool
  deriving Repr, DecidableEq

/-- Method `classifyError` (geminiService.ts lines 447-463): lower-case
the message and test each keyword list with `includes` (every keyword
in the lists is already lower-case). -/
def classifyError (errorMessage : String) : ErrorKinds :=
  let lowerMessage := lowerChars errorMessage
  { isUnauthorized := UNAUTHORIZED_PATTERNS.any (fun kw => charsHasSub lowerMessage kw.data)
    isOAuthRelated := OAUTH_RELATED_PATTERNS.any (fun kw => charsHasSub lowerMessage kw.data)
    isGeminiOverload := GEMINI_OVERLOAD_PATTERNS.any (fun kw => charsHasSub lowerMessage kw.data)
    isRateLimit := RATE_LIMIT_PATTERNS.any (fun kw => charsHasSub lowerMessage kw.data)
    isBadRequest := BAD_REQUEST_PATTERNS.any (fun kw => charsHasSub lowerMessage kw.data) }

/-- The reply record `ChatResponse` (optional fields are absent by
default, as in the TypeScript interface). -/
structure ChatResponse where
  text : String
  authorizationRequired : Bool := false
  authorizationUrl : Option String := none
  deriving Repr, DecidableEq

/-- Method `handleAuthenticationError` (geminiService.ts lines
1059-1084): when the session owns a provider, optionally invalidate its
tokens (`saveTokens(undefined as any)`), then reply with the
authentication prompt plus the pending authorization URL when one is
recorded; otherwise reply with a prompt carrying no URL.  It mutates
only the provider — the entry's chat instance and client are untouched
and the stale client is not closed. -/
def handleAuthenticationError (d : ChatSessionData) (clearTokens : Bool) :
    ChatResponse × ChatSessionData :=
  match d.oauthProvider with
  | some p =>
    match (if clearTokens then p.saveTokens none else p).pendingAuthorizationUrl with
    | some url =>
      ({ text := AUTHENTICATION_PROMPT, authorizationRequired := true,
         authorizationUrl := some url },
       { d with oauthProvider := some (if clearTokens then p.saveTokens none else p) })
    | none =>
      ({ text := "Authentication required. Please authenticate to continue.",
         authorizationRequired := true, authorizationUrl := none },
       { d with oauthProvider := some (if clearTokens then p.saveTokens none else p) })
  | none =>
    ({ text := "Authentication required. Please authenticate to continue.",
       authorizationRequired := true, authorizationUrl := none }, d)

/-- Method `handleChatError` (geminiService.ts lines 1022-1054):
classify the error message; unauthorized-class errors invalidate tokens
and return an authentication reply; other OAuth-related errors (when
the session has a provider but no chat instance) return an
authentication reply without invalidating; overload / rate-limit /
bad-request classes throw user-safe errors; everything else throws a
generic failure.  Returns the possibly mutated session data alongside
(provider mutation persists even though the map is not re-written,
because the entry and the local variable alias the same object). -/
def handleChatError (errMsg : String) (d : ChatSessionData) :
    Except String ChatResponse × ChatSessionData :=
  if (classifyError errMsg).isUnauthorized then
    (.ok (handleAuthenticationError d true).1, (handleAuthenticationError d true).2)
  else if (classifyError errMsg).isOAuthRelated && d.oauthProvider.isSome
      && d.session.isNone then
    (.ok (handleAuthenticationError d false).1, (handleAuthenticationError d false).2)
  else if (classifyError errMsg).isGeminiOverload then
    (.error "The AI model is currently overloaded. Please try again in a moment.", d)
  else if (classifyError errMsg).isRateLimit then
    (.error "Please wait a moment before sending another message.", d)
  else if (classifyError errMsg).isBadRequest then
    (.error "There was an issue processing your message. Please try rephrasing your question.", d)
  else
    (.error ("Chat processing failed: " ++ errMsg), d)

/-- Apply `handleChatError` inside `runChat`: the session-data mutation
is reflected in the map (aliasing). -/
def applyChatError (svc : GeminiService) (sessionId : String) (errMsg : String)
    (d : ChatSessionData) : Except String ChatResponse × GeminiService :=
  let r := handleChatError errMsg d
  (r.1, { svc with chatSessions := mapSet svc.chatSessions sessionId r.2 })

/-- Method `getChatSession` (geminiService.ts lines 749-756): look up
the entry and refresh its `lastActivity` in place. -/
def getChatSession (svc : GeminiService) (sessionId : String) (now : Int) :
    Option ChatSessionData × GeminiService :=
  match mapGet svc.chatSessions sessionId with
  | none => (none, svc)
  | some d =>
    let d' := { d with lastActivity := now }
    (some d', { svc with chatSessions := mapSet svc.chatSessions sessionId d' })

/-- Outcome of `sessionData.session.sendMessage({message})`. -/
inductive SendOutcome where
  | reply (text : String)
  | failure (errMsg : String)
  deriving Repr, DecidableEq

/-- The I/O outcomes one `runChat` call may consume. -/
structure RunChatEnv where
  createStatusOutcome : ConnectOutcome
  createConnectOutcome : ConnectOutcome
  reconnectOutcome : ConnectOutcome
  reconnectStatusOutcome : ConnectOutcome
  send : SendOutcome
  deriving Repr, DecidableEq

/-- The `sessionData.session.sendMessage` step of `runChat` plus its
`catch` handler. -/
def runChatSend (svc : GeminiService) (sessionId : String) (env : RunChatEnv)
    (d : ChatSessionData) : Except String ChatResponse × GeminiService :=
  match env.send with
  | .reply t => (.ok { text := t }, svc)
  | .failure errMsg => applyChatError svc sessionId errMsg d

/-- The body of `runChat` once a session entry is at hand
(geminiService.ts lines 959-1016): when the entry has no chat instance,
attempt `createMCPClient` with the stored (or a fresh) client; on
failure consult `getOAuthStatus` and return an authentication reply
when it reports a truthy URL, else throw
`'Failed to establish MCP connection'` into `handleChatError`; on
success store the chat instance and connected client, then forward the
message. -/
def runChatWithSession (svc : GeminiService) (sessionId : String) (now : Int)
    (env : RunChatEnv) (d : ChatSessionData) :
    Except String ChatResponse × GeminiService :=
  match d.session with
  | some _ => runChatSend svc sessionId env d
  | none =>
    match createMCPClient (d.client.getD freshClient) d.oauthProvider env.reconnectOutcome with
    | (some cc, prov2) =>
      runChatSend
        { svc with
          chatSessions :=
            mapSet (mapSet svc.chatSessions sessionId { d with oauthProvider := prov2 })
              sessionId
              { d with
                oauthProvider := prov2
                session := some (createChatInstance (some cc))
                client := some cc
                lastActivity := now } }
        sessionId env
        { d with
          oauthProvider := prov2
          session := some (createChatInstance (some cc))
          client := some cc
          lastActivity := now }
    | (none, some p) =>
      match getOAuthStatus p env.reconnectStatusOutcome with
      | (st, p2) =>
        if st.required && truthyStr st.authorizationUrl then
          (.ok { text := AUTHENTICATION_PROMPT, authorizationRequired := true,
                 authorizationUrl := st.authorizationUrl },
           { svc with
             chatSessions :=
               mapSet (mapSet svc.chatSessions sessionId { d with oauthProvider := some p })
                 sessionId { d with oauthProvider := some p2 } })
        else
          applyChatError
            { svc with
              chatSessions :=
                mapSet (mapSet svc.chatSessions sessionId { d with oauthProvider := some p })
                  sessionId { d with oauthProvider := some p2 } }
            sessionId "Failed to establish MCP connection"
            { d with oauthProvider := some p2 }
    | (none, none) =>
      applyChatError
        { svc with
          chatSessions :=
            mapSet svc.chatSessions sessionId { d with oauthProvider := none } }
        sessionId "Failed to establish MCP connection"
        { d with oauthProvider := none }

/-- Method `runChat` (geminiService.ts lines 935-1017).  An `.error`
result is an exception propagating out of `runChat`; the service state
is returned in either case (mutations before a throw persist). -/
def runChat (svc : GeminiService) (sessionId : String) (now : Int) (env : RunChatEnv) :
    Except String ChatResponse × GeminiService :=
  match getChatSession svc sessionId now with
  | (some d, svc1) => runChatWithSession svc1 sessionId now env d
  | (none, svc1) =>
    match createChatSession svc1 sessionId now env.createStatusOutcome
        env.createConnectOutcome with
    | (.oauthRequired url msg, svc2) =>
      (.ok { text := msg, authorizationRequired := true, authorizationUrl := some url }, svc2)
    | (.chat _, svc2) =>
      match getChatSession svc2 sessionId now with
      | (none, svc3) => (.error "Failed to create chat session.", svc3)
      | (some d, svc3) => runChatWithSession svc3 sessionId now env d

/-- Expiry test of `performSessionCleanup`: idle time strictly greater
than the timeout. -/
def sessionExpired (svc : GeminiService) (now : Int) (e : String × ChatSessionData) : Bool :=
  decide (now - e.2.lastActivity > svc.sessionTimeout)

/-- Method `performSessionCleanup` (geminiService.ts lines 529-565):
one pass collects the expired session ids; each expired entry has its
client (when present) closed and is deleted from the map.  Returns the
removed entries with their clients closed once, alongside the new
service state. -/
def performSessionCleanup (svc : GeminiService) (now : Int) :
    GeminiService × List (String × ChatSessionData) :=
  let expired := svc.chatSessions.filter (sessionExpired svc now)
  let closed := expired.map fun e =>
    (e.1, { e.2 with client := e.2.client.map closeClient })
  ({ svc with chatSessions := svc.chatSessions.filter (fun e => !sessionExpired svc now e) },
   closed)

/-- The HTTP-facing callback result record. -/
structure CallbackResult where
  success : Bool
  message : String
  sessionId : Option String := none
  error : Option String := none
  details : Option String := none
  deriving Repr, DecidableEq

/-- Number of token-endpoint requests a `TokenExchangeError` implies:
the missing-endpoint guard throws before any network call. -/
def TokenExchangeError.networkCalls : TokenExchangeError → Nat
  | .missingEndpoint => 0
  | _ => 1

/-- Method `completeOAuthFlow` (geminiService.ts lines 889-933) plus
the `catch` of its caller: exchange the code (one token-endpoint
request unless the endpoint is missing), clear the provider's pending
URL, then require the stored entry and its client, reconnect with a new
client and store a fresh chat instance on the entry — keeping the old
`client` field (the object spread copies it).  A throw anywhere is
caught by `asynchandleOAuthCallback` and converted to a failure
result.  The last component counts token-endpoint requests. -/
def completeOAuthFlow (svc : GeminiService) (code stateParam : String)
    (p : AuthorizationCodeOAuthProvider) (exchangeResp : TokenHttpResponse)
    (reconnect : ConnectOutcome) (now : Int) :
    CallbackResult × GeminiService × Nat :=
  match exchangeCodeForTokens p svc.oauthTokenEndpoint code exchangeResp with
  | .error e =>
    ({ success := false, error := some "OAuth flow completion failed",
       message := e.message }, svc, e.networkCalls)
  | .ok r =>
    match mapGet (mapSetProvider svc.chatSessions stateParam
        r.2.clearPendingAuthorizationUrl) stateParam with
    | none =>
      ({ success := false, error := some "OAuth flow completion failed",
         message := "Session client not found" },
       { svc with
         chatSessions :=
           mapSetProvider svc.chatSessions stateParam r.2.clearPendingAuthorizationUrl },
       1)
    | some sd =>
      if sd.client.isNone then
        ({ success := false, error := some "OAuth flow completion failed",
           message := "Session client not found" },
         { svc with
           chatSessions :=
             mapSetProvider svc.chatSessions stateParam r.2.clearPendingAuthorizationUrl },
         1)
      else
        match createMCPClient freshClient (some r.2.clearPendingAuthorizationUrl)
            reconnect with
        | (cc1, prov2) =>
          ({ success := true, message := "Authorization code received successfully",
             sessionId := some stateParam },
           { svc with
             chatSessions :=
               mapSet
                 (mapSetProvider svc.chatSessions stateParam
                   r.2.clearPendingAuthorizationUrl)
                 stateParam
                 { sd with
                   oauthProvider := prov2
                   session := some (createChatInstance cc1)
                   lastActivity := now } },
           1)

/-- Method `asynchandleOAuthCallback` (geminiService.ts lines 818-850)
with `handleOAuthCallbackError` and `validateOAuthCallbackParams`
inlined: resolve the provider from the session named by a truthy
`state`; a truthy `error` parameter clears the provider's pending URL
(when both state and provider exist) and reports authorization failure;
missing (falsy) `code` or `state` is a parameter-validation failure; an
unknown session is reported as invalid; otherwise the flow completes
via `completeOAuthFlow`.  The `Nat` component counts token-endpoint
requests performed. -/
def asynchandleOAuthCallback (svc : GeminiService)
    (code stateParam errorParam errorDescription : Option String)
    (exchangeResp : TokenHttpResponse) (reconnect : ConnectOutcome) (now : Int) :
    CallbackResult × GeminiService × Nat :=
  if truthyStr errorParam then
    match (if truthyStr stateParam then
        (mapGet svc.chatSessions (stateParam.getD "")).bind (·.oauthProvider)
      else none) with
    | some p =>
      ({ success := false
         error := some "Authorization failed"
         details := some (if truthyStr errorDescription then errorDescription.getD ""
                          else errorParam.getD "")
         message := "OAuth authorization failed" },
       (if truthyStr stateParam then
          { svc with
            chatSessions :=
              mapSetProvider svc.chatSessions (stateParam.getD "")
                p.clearPendingAuthorizationUrl }
        else svc), 0)
    | none =>
      ({ success := false
         error := some "Authorization failed"
         details := some (if truthyStr errorDescription then errorDescription.getD ""
                          else errorParam.getD "")
         message := "OAuth authorization failed" }, svc, 0)
  else if !(truthyStr code && truthyStr stateParam) then
    ({ success := false, error := some "Missing authorization code or state parameter",
       message := "Invalid OAuth callback parameters" }, svc, 0)
  else
    match (if truthyStr stateParam then
        (mapGet svc.chatSessions (stateParam.getD "")).bind (·.oauthProvider)
      else none) with
    | none =>
      ({ success := false, error := some "Invalid session or OAuth provider not found",
         message := "Session not found" }, svc, 0)
    | some p =>
      completeOAuthFlow svc (code.getD "") (stateParam.getD "") p exchangeResp
        reconnect now

/-!
Claim-side definitions.  The session map has no explicit state field;
the states of the specification map onto entries as follows: an entry
holding a chat instance (`session` present) is `authenticated` — it is
the shape `runChat` forwards messages through; an entry stored without
a chat instance (`session` absent, the shape `buildOAuthRequiredResponse`
creates) is `oauth_pending`.  "connectedClient" means a client whose
MCP handshake succeeded (`connected = true`).
-/

/-- The invariant exactly as claim C1 states it, as a boolean check on
one entry: `authenticated` implies a provider with `hasValidTokens` and
a non-null connected client; `oauth_pending` implies no connected
client. -/
def checkClaimSessionInvariant (d : ChatSessionData) : Bool :=
  (match d.session with
   | some _ =>
     (match d.oauthProvider with
      | some p => p.hasValidTokens
      | none => false)
     && (match d.client with
         | some c => c.connected
         | none => false)
   | none => true)
  && (match d.session with
      | none =>
        (match d.client with
         | some c => !c.connected
         | none => true)
      | some _ => true)

/-- The half of the invariant the code maintains: an `oauth_pending`
entry (no chat instance) never holds a connected client. -/
def checkPendingHalf (d : ChatSessionData) : Bool :=
  match d.session with
  | some _ => true
  | none =>
    match d.client with
    | some c => !c.connected
    | none => true

/-- `checkPendingHalf` over every entry of a session map. -/
def sessionMapOk (m : List (String × ChatSessionData)) : Bool :=
  m.all fun e => checkPendingHalf e.2

/-- Modelled from the spec (claim C3's description, for comparison with
the implementation): valid iff `access_token` present and (`expires_in`
absent OR the token is unexpired at check time, expiry being the
absolute instant fixed when the tokens were saved:
`savedAt + expires_in` seconds). -/
def hasValidTokensAbsoluteExpiry (tokens : Option OAuthTokens)
    (savedAtMs nowMs : Int) : Bool :=
  match tokens with
  | none => false
  | some t =>
    truthyStr t.access_token &&
      (match t.expires_in with
       | none => true
       | some e => decide (nowMs < savedAtMs + e * 1000))

/-!
Concrete fixtures used by counterexamples and witnesses.
-/

/-- A service with OAuth configured and an empty session map. -/
def svcEmptyOAuth : GeminiService :=
  { chatSessions := [], oauthClientId := some "client-1",
    oauthTokenEndpoint := some "https://sso.example/oauth2/token",
    sessionTimeout := 86400000 }

/-- A service with no OAuth configured and an empty session map. -/
def svcEmptyNoOAuth : GeminiService :=
  { chatSessions := [], oauthClientId := none, oauthTokenEndpoint := none,
    sessionTimeout := 86400000 }

/-- A token set with a one-hour `expires_in`, as the token endpoint
returns it. -/
def sampleTokens : OAuthTokens :=
  { access_token := some "at-1", token_type := "Bearer", expires_in := some 3600,
    refresh_token := none, scope := none, obtained_at := none }

/-- A session provider holding `sampleTokens` and a recorded pending
authorization URL. -/
def provWithUrl : AuthorizationCodeOAuthProvider :=
  { clientId := some "client-1", clientSecret := none,
    savedTokens := some sampleTokens, codeVerifierSlot := none,
    pendingAuthorizationUrl := some "https://sso.example/authorize?x=1",
    sessionId := some "s1" }

/-!
Lemmas about the session-map primitives.
-/

theorem mapGet_mem {m : List (String × ChatSessionData)} {k : String}
    {d : ChatSessionData} (h : mapGet m k = some d) : (k, d) ∈ m := by
  unfold mapGet at h
  cases he : m.find? (fun e => e.1 = k) with
  | none => rw [he] at h; simp at h
  | some e =>
    rw [he] at h
    simp at h
    have hmem := List.mem_of_find?_eq_some he
    have hpred := List.find?_some he
    simp at hpred
    have : e = (k, d) := by
      cases e
      simp_all
    rw [this] at hmem
    exact hmem

theorem find?_set_of_isSome (m : List (String × ChatSessionData)) (k : String)
    (v : ChatSessionData) (h : (m.find? fun e => e.1 = k).isSome) :
    ((m.map fun e => if e.1 = k then (k, v) else e).find? fun e => e.1 = k)
      = some (k, v) := by
  induction m with
  | nil => simp at h
  | cons a t ih =>
    by_cases hk : a.1 = k
    · rw [List.map_cons, if_pos hk]
      exact List.find?_cons_of_pos _ (by simp)
    · rw [List.map_cons, if_neg hk]
      rw [List.find?_cons_of_neg _ (by simp [hk])]
      apply ih
      rw [List.find?_cons_of_neg _ (by simp [hk])] at h
      exact h

theorem find?_append_of_none (m : List (String × ChatSessionData)) (k : String)
    (v : ChatSessionData) (h : (m.find? fun e => e.1 = k) = none) :
    ((m ++ [(k, v)]).find? fun e => e.1 = k) = some (k, v) := by
  induction m with
  | nil =>
    rw [List.nil_append]
    exact List.find?_cons_of_pos _ (by simp)
  | cons a t ih =>
    by_cases hk : a.1 = k
    · rw [List.find?_cons_of_pos _ (by simp [hk])] at h
      simp at h
    · rw [List.cons_append, List.find?_cons_of_neg _ (by simp [hk])]
      apply ih
      rw [List.find?_cons_of_neg _ (by simp [hk])] at h
      exact h

theorem mapGet_mapSet_self (m : List (String × ChatSessionData)) (k : String)
    (v : ChatSessionData) : mapGet (mapSet m k v) k = some v := by
  unfold mapGet mapSet
  by_cases h : (m.find? fun e => e.1 = k).isSome
  · rw [if_pos h, find?_set_of_isSome m k v h]
    rfl
  · rw [if_neg h,
      find?_append_of_none m k v (by rwa [← Option.not_isSome_iff_eq_none])]
    rfl

theorem sessionMapOk_mem {m : List (String × ChatSessionData)}
    {e : String × ChatSessionData} (hm : sessionMapOk m = true) (he : e ∈ m) :
    checkPendingHalf e.2 = true := by
  unfold sessionMapOk at hm
  rw [List.all_eq_true] at hm
  exact hm e he

theorem sessionMapOk_mapSet {m : List (String × ChatSessionData)} {k : String}
    {v : ChatSessionData} (hm : sessionMapOk m = true)
    (hv : checkPendingHalf v = true) : sessionMapOk (mapSet m k v) = true := by
  unfold sessionMapOk mapSet at *
  split
  · rw [List.all_eq_true] at hm ⊢
    intro e he
    rw [List.mem_map] at he
    obtain ⟨a, ha, rfl⟩ := he
    by_cases hk : a.1 = k
    · simpa [hk] using hv
    · simpa [hk] using hm a ha
  · rw [List.all_append]
    simp only [hm, Bool.true_and, List.all_cons, List.all_nil, Bool.and_true]
    exact hv

theorem checkPendingHalf_set_provider (d : ChatSessionData)
    (p : Option AuthorizationCodeOAuthProvider) :
    checkPendingHalf { d with oauthProvider := p } = checkPendingHalf d := rfl

theorem checkPendingHalf_set_lastActivity (d : ChatSessionData) (t : Int) :
    checkPendingHalf { d with lastActivity := t } = checkPendingHalf d := rfl

theorem sessionMapOk_mapSetProvider {m : List (String × ChatSessionData)}
    (k : String) (p : AuthorizationCodeOAuthProvider)
    (hm : sessionMapOk m = true) : sessionMapOk (mapSetProvider m k p) = true := by
  unfold sessionMapOk mapSetProvider at *
  rw [List.all_eq_true] at hm ⊢
  intro e he
  rw [List.mem_map] at he
  obtain ⟨a, ha, rfl⟩ := he
  by_cases hk : a.1 = k
  · simpa [hk, checkPendingHalf_set_provider] using hm a ha
  · simpa [hk] using hm a ha

theorem sessionMapOk_filter {m : List (String × ChatSessionData)}
    (f : String × ChatSessionData → Bool) (hm : sessionMapOk m = true) :
    sessionMapOk (m.filter f) = true := by
  unfold sessionMapOk at *
  rw [List.all_eq_true] at hm ⊢
  intro e he
  exact hm e (List.mem_of_mem_filter he)

theorem mapGet_mapSetProvider (m : List (String × ChatSessionData)) (k : String)
    (p : AuthorizationCodeOAuthProvider) :
    mapGet (mapSetProvider m k p) k
      = (mapGet m k).map (fun d => { d with oauthProvider := some p }) := by
  unfold mapGet mapSetProvider
  induction m with
  | nil => rfl
  | cons a t ih =>
    by_cases hk : a.1 = k
    · rw [List.map_cons, if_pos hk]
      rw [List.find?_cons_of_pos _ (by simp [hk]), List.find?_cons_of_pos _ (by simp [hk])]
      rfl
    · rw [List.map_cons, if_neg hk]
      rw [List.find?_cons_of_neg _ (by simp [hk]),
        List.find?_cons_of_neg _ (by simp [hk])]
      exact ih

/-- Claim C3 counterexample: `hasValidTokens` does not use an absolute
expiry computed at save time.  A token set with `expires_in = 3600`
seconds is reported valid by the implementation no matter when it is
checked — the method reads the raw stored counter and consults no
clock — whereas the claimed check (absolute expiry fixed at save time,
here save time `0`) is false at check time `10^10` ms, far past expiry. -/
theorem c3_absolute_expiry_counterexample :
    provWithUrl.hasValidTokens = true
    ∧ hasValidTokensAbsoluteExpiry provWithUrl.savedTokens 0 10000000000 = false := by
  constructor
  · rfl
  · rfl

/-- Claim C3 (amended): `hasValidTokens()` returns true iff cached
tokens exist with a truthy `access_token` and (`expires_in` is absent
or `0`, or the stored `expires_in` counter is positive).  No absolute
expiry is computed: `saveTokens` records no timestamp and the result is
independent of the check time. -/
theorem c3_hasValidTokens_raw_counter (p : AuthorizationCodeOAuthProvider) :
    p.hasValidTokens = true ↔
      ∃ t, p.savedTokens = some t ∧ truthyStr t.access_token = true ∧
        (truthyInt t.expires_in = false ∨ 0 < t.expires_in.getD 0) := by
  unfold AuthorizationCodeOAuthProvider.hasValidTokens
  cases hs : p.savedTokens with
  | none => simp
  | some t =>
    by_cases ha : truthyStr t.access_token <;>
      by_cases he : truthyInt t.expires_in <;>
        simp [ha, he]

/-- Claim C4 counterexample: a successful `exchangeCodeForTokens` call
on a provider holding a pending authorization URL saves the returned
tokens but leaves the pending URL in place — the operation itself does
not clear it (the clearing happens later, in `completeOAuthFlow`). -/
theorem c4_pending_url_survives_exchange :
    exchangeCodeForTokens provWithUrl (some "https://sso.example/oauth2/token")
        "code-1" { ok := true, status := 200, parsedTokens := some sampleTokens }
      = .ok (sampleTokens, { provWithUrl with savedTokens := some sampleTokens })
    ∧ ({ provWithUrl with savedTokens := some sampleTokens } :
        AuthorizationCodeOAuthProvider).pendingAuthorizationUrl
      = some "https://sso.example/authorize?x=1" := by
  constructor
  · rfl
  · rfl

/-- Claim C4 (amended): `exchangeCodeForTokens` fails with a
token-exchange error on every non-2xx or malformed response, and on
success saves the returned tokens; it does not itself clear the pending
authorization URL — the caller `completeOAuthFlow` clears it right
after a successful exchange, so the provider stored in the session map
after the callback has no pending URL. -/
theorem c4_exchange_error_and_save (p : AuthorizationCodeOAuthProvider)
    (ep code : String) (resp : TokenHttpResponse) :
    (resp.ok = false →
      exchangeCodeForTokens p (some ep) code resp = .error (.httpError resp.status))
    ∧ (resp.ok = true → resp.parsedTokens = none →
      exchangeCodeForTokens p (some ep) code resp = .error .malformedResponse)
    ∧ (∀ t, resp.ok = true → resp.parsedTokens = some t →
      exchangeCodeForTokens p (some ep) code resp = .ok (t, p.saveTokens (some t))
      ∧ (p.saveTokens (some t)).savedTokens = some t
      ∧ (p.saveTokens (some t)).pendingAuthorizationUrl = p.pendingAuthorizationUrl)
    ∧ (∀ svc stateParam now t, resp.ok = true → resp.parsedTokens = some t →
      svc.oauthTokenEndpoint = some ep →
      ∀ d, mapGet (completeOAuthFlow svc code stateParam p resp
          ConnectOutcome.success now).2.1.chatSessions stateParam = some d →
      ∀ q, d.oauthProvider = some q → q.pendingAuthorizationUrl = none) := by
  refine ⟨?_, ?_, ?_, ?_⟩
  · intro hok
    simp [exchangeCodeForTokens, hok]
  · intro hok hparse
    simp [exchangeCodeForTokens, hok, hparse]
  · intro t hok hparse
    exact ⟨by simp [exchangeCodeForTokens, hok, hparse], rfl, rfl⟩
  · intro svc stateParam now t hok hparse hep d hd q hq
    unfold completeOAuthFlow at hd
    rw [hep] at hd
    simp only [exchangeCodeForTokens, hok, hparse, if_true] at hd
    set p2 := ((p.saveTokens (some t)).clearPendingAuthorizationUrl) with hp2
    have hpend : p2.pendingAuthorizationUrl = none := rfl
    cases hg : mapGet svc.chatSessions stateParam with
    | none =>
      simp only [mapGet_mapSetProvider, hg, Option.map_none'] at hd
      simp at hd
    | some sd =>
      by_cases hc : sd.client.isNone
      · simp only [mapGet_mapSetProvider, hg, Option.map_some', hc, if_true,
          Option.some.injEq] at hd
        rw [← hd] at hq
        have h2 : p2 = q := Option.some.inj hq
        rw [← h2]
        exact hpend
      · have hres : createMCPClient freshClient (some p2) ConnectOutcome.success
            = (some { freshClient with connected := true }, some p2) := rfl
        simp only [mapGet_mapSetProvider, hg, Option.map_some', hres] at hd
        rw [if_neg (by simpa using hc)] at hd
        rw [mapGet_mapSet_self] at hd
        have hd2 := Option.some.inj hd
        rw [← hd2] at hq
        have h2 : p2 = q := Option.some.inj hq
        rw [← h2]
        exact hpend

/-- Claim C6: eviction is idempotent and correct.  `performSessionCleanup`
keeps exactly the entries whose idle time is within the timeout,
unchanged; removes exactly the expired entries, closing each removed
entry's owned client exactly once (the removed entry is reported with
its client's close counter bumped by one); and a second run with no
elapsed time removes zero sessions. -/
theorem c6_eviction_idempotent_and_correct (svc : GeminiService) (now : Int) :
    ((performSessionCleanup svc now).1.chatSessions
       = svc.chatSessions.filter (fun e => !sessionExpired svc now e))
    ∧ ((performSessionCleanup svc now).2
       = (svc.chatSessions.filter (sessionExpired svc now)).map
           (fun e => (e.1, { e.2 with client := e.2.client.map closeClient })))
    ∧ (∀ e ∈ svc.chatSessions, sessionExpired svc now e = true →
         (e.1, { e.2 with client := e.2.client.map closeClient })
           ∈ (performSessionCleanup svc now).2)
    ∧ (∀ e ∈ svc.chatSessions, sessionExpired svc now e = false →
         e ∈ (performSessionCleanup svc now).1.chatSessions)
    ∧ (∀ e ∈ (performSessionCleanup svc now).1.chatSessions,
         e ∈ svc.chatSessions ∧ sessionExpired svc now e = false)
    ∧ (performSessionCleanup (performSessionCleanup svc now).1 now).2 = [] := by
  refine ⟨rfl, rfl, ?_, ?_, ?_, ?_⟩
  · intro e he hexp
    unfold performSessionCleanup
    simp only
    exact List.mem_map_of_mem _ (List.mem_filter.mpr ⟨he, hexp⟩)
  · intro e he hfresh
    unfold performSessionCleanup
    simp only
    exact List.mem_filter.mpr ⟨he, by simp [hfresh]⟩
  · intro e he
    unfold performSessionCleanup at he
    simp only at he
    have := List.mem_filter.mp he
    refine ⟨this.1, ?_⟩
    simpa using this.2
  · unfold performSessionCleanup
    simp only
    rw [List.map_eq_nil_iff]
    rw [List.filter_eq_nil_iff]
    intro e he
    have h2 := (List.mem_filter.mp he).2
    have hto : sessionExpired { svc with
        chatSessions := List.filter (fun e => !sessionExpired svc now e) svc.chatSessions }
        now e = sessionExpired svc now e := rfl
    rw [hto]
    simpa using h2

theorem agentTokensCall_inFlight (st : AgentProviderState) (now : Int)
    (h : st.inFlight = true) : (agentTokensCall st now).2 = st := by
  cases hc : st.tokensCache with
  | none => simp [agentTokensCall, hc, h]
  | some t =>
    by_cases hv : agentIsTokenValid true t now <;> simp [agentTokensCall, hc, h, hv]

/-- Claim C7: single-flight token acquisition.  While an acquisition is
in flight (`_agentTokenPromise` set), any sequence of further `tokens()`
calls starts no second acquisition: the ghost start counter is
unchanged (indeed the whole provider state is), and the same in-flight
attempt remains the one all callers observe. -/
theorem c7_single_flight (st : AgentProviderState) (nows : List Int)
    (h : st.inFlight = true) :
    (agentTokensCalls st nows).started = st.started
    ∧ (agentTokensCalls st nows).inFlight = true := by
  have key : agentTokensCalls st nows = st := by
    unfold agentTokensCalls
    induction nows with
    | nil => rfl
    | cons a l ih => rw [List.foldl_cons, agentTokensCall_inFlight st a h]; exact ih
  rw [key]
  exact ⟨rfl, h⟩

/-- Witness for C7: three concurrent-retry calls against an in-flight
state leave its start counter at 1 and the flight in progress. -/
theorem c7_single_flight_witness :
    (agentTokensCalls { tokensCache := none, inFlight := true, started := 1 } [0, 5, 10]).started
      = ({ tokensCache := none, inFlight := true, started := 1 } : AgentProviderState).started
    ∧ (agentTokensCalls { tokensCache := none, inFlight := true, started := 1 } [0, 5, 10]).inFlight
      = true :=
  c7_single_flight { tokensCache := none, inFlight := true, started := 1 } [0, 5, 10] rfl

/-- Agent tokens whose `expires_in` is present but `0` — JavaScript
treats `0` as falsy in `if (tokens.expires_in)`. -/
def zeroExpiryAgentTokens : OAuthTokens :=
  { access_token := some "at-agent", token_type := "Bearer", expires_in := some 0,
    refresh_token := none, scope := none, obtained_at := some 0 }

/-- Claim C8 counterexample: for a cached agent token with
`expires_in = 0` (set, but JavaScript-falsy) and `obtained_at = 0`, the
validity check returns `true` at `now = 10^6` ms, although the claimed
characterisation (`now < obtainedAt + expires_in·1000 − 60000`) is
false there: `if (tokens.expires_in)` skips the expiry arithmetic for
the falsy value `0` and falls through to `return true`. -/
theorem c8_zero_expiry_counterexample :
    agentIsTokenValid true zeroExpiryAgentTokens 1000000 = true
    ∧ ¬((1000000 : Int) < 0 + 0 * 1000 - 60000) := by
  constructor
  · rfl
  · decide

/-- Claim C8 (amended): for every cached agent token carrying an
`obtained_at` timestamp and a nonzero `expires_in`, the validity check
returns true iff the current time is strictly before
`obtained_at + expires_in·1000 − 60000` ms (the 60-second safety
margin); a token with `expires_in` absent — or present but `0`, which
is JavaScript-falsy and treated the same — is valid whenever its
`access_token` is present. -/
theorem c8_agent_token_validity (t : OAuthTokens) (now : Int)
    (hacc : truthyStr t.access_token = true) :
    (∀ ob e, t.obtained_at = some ob → t.expires_in = some e → e ≠ 0 →
       (agentIsTokenValid true t now = true ↔ now < ob + e * 1000 - 60000))
    ∧ (t.expires_in = none → agentIsTokenValid true t now = true)
    ∧ (t.expires_in = some 0 → agentIsTokenValid true t now = true) := by
  refine ⟨?_, ?_, ?_⟩
  · intro ob e hob hexp hnz
    unfold agentIsTokenValid
    simp [hacc, hob, hexp, truthyInt, hnz]
  · intro hexp
    unfold agentIsTokenValid
    simp [hacc, hexp, truthyInt]
  · intro hexp
    unfold agentIsTokenValid
    simp [hacc, hexp, truthyInt]

/-- Agent tokens acquired through the flow: `obtained_at` recorded, one
hour of validity. -/
def agentTokensSample : OAuthTokens :=
  { access_token := some "at-agent", token_type := "Bearer", expires_in := some 3600,
    refresh_token := none, scope := none, obtained_at := some 0 }

/-- Witness for C8 at a freshly obtained token: valid at `now = 0`
because `0 < 3600000 − 60000`. -/
theorem c8_agent_token_validity_witness :
    agentIsTokenValid true agentTokensSample 0 = true ↔ (0 : Int) < 0 + 3600 * 1000 - 60000 :=
  (c8_agent_token_validity agentTokensSample 0 rfl).1 0 3600 rfl rfl (by decide)

/-- Claim C10: an OAuth callback carrying truthy `code` and `state` but
naming a session absent from the map returns the invalid-session
failure result without throwing, performs no token exchange (zero
token-endpoint requests), and leaves the service state — in particular
the session map — unchanged. -/
theorem c10_unknown_session_callback (svc : GeminiService) (codeS stateS : String)
    (errorDescription : Option String) (resp : TokenHttpResponse)
    (rc : ConnectOutcome) (now : Int)
    (hcode : codeS ≠ "") (hstate : stateS ≠ "")
    (hmiss : mapGet svc.chatSessions stateS = none) :
    asynchandleOAuthCallback svc (some codeS) (some stateS) none errorDescription resp rc now
      = ({ success := false, message := "Session not found",
           error := some "Invalid session or OAuth provider not found" }, svc, 0) := by
  unfold asynchandleOAuthCallback
  simp [truthyStr, hcode, hstate, hmiss]

/-- Witness for C10: callback `code="c1"`, `state="abc"` against the
empty session map. -/
theorem c10_unknown_session_callback_witness :
    asynchandleOAuthCallback svcEmptyOAuth (some "c1") (some "abc") none none
        { ok := true, status := 200, parsedTokens := some sampleTokens }
        ConnectOutcome.success 0
      = ({ success := false, message := "Session not found",
           error := some "Invalid session or OAuth provider not found" }, svcEmptyOAuth, 0) :=
  c10_unknown_session_callback svcEmptyOAuth "c1" "abc" none
    { ok := true, status := 200, parsedTokens := some sampleTokens }
    ConnectOutcome.success 0 (by decide) (by decide) rfl

/-- Witness for C3's amended characterisation at a concrete provider. -/
theorem c3_hasValidTokens_raw_counter_witness : provWithUrl.hasValidTokens = true :=
  (c3_hasValidTokens_raw_counter provWithUrl).mpr
    ⟨sampleTokens, rfl, rfl, Or.inr (by decide)⟩

/-- Witness for C4 at concrete responses: a 500 response is a
token-exchange error, and a successful exchange saves the tokens. -/
theorem c4_exchange_error_and_save_witness :
    exchangeCodeForTokens provWithUrl (some "https://sso.example/oauth2/token") "code-1"
        { ok := false, status := 500, parsedTokens := none }
      = .error (.httpError 500)
    ∧ exchangeCodeForTokens provWithUrl (some "https://sso.example/oauth2/token") "code-1"
        { ok := true, status := 200, parsedTokens := some sampleTokens }
      = .ok (sampleTokens, provWithUrl.saveTokens (some sampleTokens)) :=
  ⟨(c4_exchange_error_and_save provWithUrl "https://sso.example/oauth2/token" "code-1"
      { ok := false, status := 500, parsedTokens := none }).1 rfl,
   ((c4_exchange_error_and_save provWithUrl "https://sso.example/oauth2/token" "code-1"
      { ok := true, status := 200, parsedTokens := some sampleTokens }).2.2.1
      sampleTokens rfl rfl).1⟩

/-- A map with one stale session (idle since time 0) and one fresh one,
for the eviction witness. -/
def svcCleanupSample : GeminiService :=
  { chatSessions :=
      [("old", { session := some { hasTools := true },
                 client := some { connected := true, closeCount := 0 },
                 oauthProvider := none, lastActivity := 0 }),
       ("new", { session := some { hasTools := true },
                 client := some { connected := true, closeCount := 0 },
                 oauthProvider := none, lastActivity := 86400001 })],
    oauthClientId := none, oauthTokenEndpoint := none, sessionTimeout := 86400000 }

/-- Witness for C6 at a concrete map: the stale entry is removed with
its client closed once, the fresh entry survives unchanged, and the
second run removes nothing. -/
theorem c6_eviction_witness :
    ("old", ({ session := some { hasTools := true },
               client := some { connected := true, closeCount := 1 },
               oauthProvider := none, lastActivity := 0 } : ChatSessionData))
      ∈ (performSessionCleanup svcCleanupSample 86400002).2
    ∧ ("new", ({ session := some { hasTools := true },
                 client := some { connected := true, closeCount := 0 },
                 oauthProvider := none, lastActivity := 86400001 } : ChatSessionData))
      ∈ (performSessionCleanup svcCleanupSample 86400002).1.chatSessions
    ∧ (performSessionCleanup (performSessionCleanup svcCleanupSample 86400002).1 86400002).2
      = [] :=
  ⟨(c6_eviction_idempotent_and_correct svcCleanupSample 86400002).2.2.1
      ("old", { session := some { hasTools := true },
                client := some { connected := true, closeCount := 0 },
                oauthProvider := none, lastActivity := 0 })
      (by decide) (by decide),
   (c6_eviction_idempotent_and_correct svcCleanupSample 86400002).2.2.2.1
      ("new", { session := some { hasTools := true },
                client := some { connected := true, closeCount := 0 },
                oauthProvider := none, lastActivity := 86400001 })
      (by decide) (by decide),
   (c6_eviction_idempotent_and_correct svcCleanupSample 86400002).2.2.2.2.2⟩

/-- The fresh per-session provider `createOAuthProviderForSession`
builds for session `"s1"` of `svcEmptyOAuth`. -/
def freshProviderS1 : AuthorizationCodeOAuthProvider :=
  { clientId := some "client-1", clientSecret := none, savedTokens := none,
    codeVerifierSlot := none, pendingAuthorizationUrl := none,
    sessionId := some "s1" }

/-- Claim C2 counterexample: a failed connection attempt that records
no pending authorization URL is not propagated as the raw connection
error — it is swallowed.  `getOAuthStatus` reports
`required = false`, `createMCPClient` catches the error and returns
`undefined`, and `createChatSession` completes "successfully" with a
degraded tool-less chat session whose stored entry has no client. -/
theorem c2_raw_connection_error_swallowed :
    (getOAuthStatus freshProviderS1 (.failure none)).1
      = { required := false, authorizationUrl := none }
    ∧ (createChatSession svcEmptyOAuth "s1" 0 (.failure none) (.failure none)).1
      = .chat { hasTools := false }
    ∧ mapGet (createChatSession svcEmptyOAuth "s1" 0
          (.failure none) (.failure none)).2.chatSessions "s1"
      = some { session := some { hasTools := false }, client := none,
               oauthProvider := some freshProviderS1, lastActivity := 0 }
    ∧ createMCPClient freshClient none (.failure none) = (none, none) := by
  refine ⟨rfl, rfl, rfl, rfl⟩

/-- Claim C2 (amended): when a failed attempt records a pending
authorization URL, an oauth-required outcome carrying exactly that URL
propagates to the caller (both from `getOAuthStatus` and through
`createChatSession`), and authorization-required is never reported
without a recorded URL; but when no pending URL is present the raw
connection error is NOT propagated: `getOAuthStatus` swallows it and
reports authorization-not-required, `createMCPClient` swallows it and
returns `undefined`, and session creation proceeds to a degraded
tool-less chat session. -/
theorem c2_oauth_required_propagation (p : AuthorizationCodeOAuthProvider)
    (u cid : String) (client : CustomClient)
    (provider : Option AuthorizationCodeOAuthProvider)
    (svc : GeminiService) (sid : String) (now : Int) (co : ConnectOutcome)
    (hnt : p.hasValidTokens = false) (hcid : svc.oauthClientId = some cid) :
    ((getOAuthStatus p (.failure (some u))).1
       = { required := true, authorizationUrl := some u })
    ∧ (∀ oc, (getOAuthStatus p oc).1.required = true →
         (getOAuthStatus p oc).1.authorizationUrl
           = (getOAuthStatus p oc).2.pendingAuthorizationUrl
         ∧ (getOAuthStatus p oc).2.pendingAuthorizationUrl.isSome = true)
    ∧ ((createChatSession svc sid now (.failure (some u)) co).1
       = .oauthRequired u WELCOME_MESSAGE)
    ∧ (p.pendingAuthorizationUrl = none →
       (getOAuthStatus p (.failure none)).1
         = { required := false, authorizationUrl := none })
    ∧ (createMCPClient client provider (.failure none) = (none, provider))
    ∧ ((createChatSession svc sid now (.failure none) (.failure none)).1
       = .chat { hasTools := false }) := by
  refine ⟨?_, ?_, ?_, ?_, ?_, ?_⟩
  · simp [getOAuthStatus, hnt, AuthorizationCodeOAuthProvider.redirectToAuthorization]
  · intro oc hreq
    by_cases hv : p.hasValidTokens
    · simp [getOAuthStatus, hv] at hreq
    · cases oc with
      | success => simp [getOAuthStatus, hv] at hreq
      | failure recordedUrl =>
        cases recordedUrl with
        | none =>
          unfold getOAuthStatus at hreq ⊢
          rw [if_neg (by simp [hv])] at hreq ⊢
          exact ⟨rfl, hreq⟩
        | some w =>
          unfold getOAuthStatus
          rw [if_neg (by simp [hv])]
          exact ⟨rfl, rfl⟩
  · unfold createChatSession createOAuthProviderForSession
    rw [hcid]
    simp [getOAuthStatus, AuthorizationCodeOAuthProvider.hasValidTokens,
      AuthorizationCodeOAuthProvider.redirectToAuthorization,
      buildOAuthRequiredResponse]
  · intro hpend
    simp [getOAuthStatus, hnt, hpend]
  · cases provider <;> rfl
  · unfold createChatSession createOAuthProviderForSession
    rw [hcid]
    simp [getOAuthStatus, AuthorizationCodeOAuthProvider.hasValidTokens,
      buildChatSessionResponse, createMCPClient, createChatInstance]

/-- Witness for C2's amended statement at concrete inputs. -/
theorem c2_oauth_required_propagation_witness :
    ((getOAuthStatus freshProviderS1 (.failure (some "https://sso.example/authorize?x=1"))).1
       = { required := true, authorizationUrl := some "https://sso.example/authorize?x=1" })
    ∧ ((createChatSession svcEmptyOAuth "s1" 0
          (.failure (some "https://sso.example/authorize?x=1")) ConnectOutcome.success).1
       = .oauthRequired "https://sso.example/authorize?x=1" WELCOME_MESSAGE) :=
  ⟨(c2_oauth_required_propagation freshProviderS1 "https://sso.example/authorize?x=1"
      "client-1" freshClient none svcEmptyOAuth "s1" 0 ConnectOutcome.success
      rfl rfl).1,
   (c2_oauth_required_propagation freshProviderS1 "https://sso.example/authorize?x=1"
      "client-1" freshClient none svcEmptyOAuth "s1" 0 ConnectOutcome.success
      rfl rfl).2.2.1⟩

/-- An authenticated session entry: chat instance present, connected
client never closed, provider holding valid tokens and a pending URL. -/
def authedSessionData : ChatSessionData :=
  { session := some { hasTools := true },
    client := some { connected := true, closeCount := 0 },
    oauthProvider := some provWithUrl, lastActivity := 0 }

/-- A service holding the authenticated session `"s1"`. -/
def svcAuthed : GeminiService :=
  { chatSessions := [("s1", authedSessionData)], oauthClientId := some "client-1",
    oauthTokenEndpoint := some "https://sso.example/oauth2/token",
    sessionTimeout := 86400000 }

/-- A `runChat` environment whose downstream send fails with a 401. -/
def env401 : RunChatEnv :=
  { createStatusOutcome := .success, createConnectOutcome := .success,
    reconnectOutcome := .success, reconnectStatusOutcome := .success,
    send := .failure "Request failed with status 401" }

/-- Claim C5 counterexample: a downstream 401 on an authenticated
session invalidates the credentials but does NOT regress the session
out of the authenticated state and does NOT discard or close the stale
client: the stored entry keeps its chat instance and its client with
`closeCount = 0` (never closed), ready to be reused by the next
message. -/
theorem c5_stale_client_not_closed :
    mapGet (runChat svcAuthed "s1" 5 env401).2.chatSessions "s1"
      = some { session := some { hasTools := true },
               client := some { connected := true, closeCount := 0 },
               oauthProvider := some (provWithUrl.saveTokens none), lastActivity := 5 }
    ∧ (runChat svcAuthed "s1" 5 env401).1
      = .ok { text := AUTHENTICATION_PROMPT, authorizationRequired := true,
              authorizationUrl := some "https://sso.example/authorize?x=1" } := by
  refine ⟨rfl, rfl⟩

/-- Claim C5 (amended): whenever a downstream call for a session
holding a chat instance fails with an unauthorized-class error, the
provider's credentials are invalidated (`saveTokens(undefined)`) and
an authorization-required reply is returned; but the session entry is
otherwise untouched — it keeps its chat instance (no state regression)
and its client, which is neither discarded nor closed and will be
reused by the next message. -/
theorem c5_unauthorized_invalidates_tokens_only (svc : GeminiService)
    (sid : String) (now : Int) (env : RunChatEnv) (d : ChatSessionData)
    (p : AuthorizationCodeOAuthProvider) (chat : Chat) (msg : String)
    (hget : mapGet svc.chatSessions sid = some d)
    (hsess : d.session = some chat)
    (hprov : d.oauthProvider = some p)
    (hsend : env.send = .failure msg)
    (hcls : (classifyError msg).isUnauthorized = true) :
    ∃ resp, (runChat svc sid now env).1 = Except.ok resp
      ∧ resp.authorizationRequired = true
      ∧ resp.text ≠ ""
      ∧ mapGet (runChat svc sid now env).2.chatSessions sid
          = some { session := d.session, client := d.client,
                   oauthProvider := some (p.saveTokens none), lastActivity := now } := by
  obtain ⟨ds, dc, dp, dl⟩ := d
  simp only at hsess hprov
  subst hsess
  subst hprov
  unfold runChat getChatSession
  rw [hget]
  simp only
  unfold runChatWithSession runChatSend
  rw [hsend]
  simp only
  unfold applyChatError handleChatError
  simp only [hcls, if_true]
  unfold handleAuthenticationError
  simp only [if_true]
  cases hp : (p.saveTokens none).pendingAuthorizationUrl with
  | some url =>
    refine ⟨_, rfl, ?_, ?_, ?_⟩
    · rfl
    · show AUTHENTICATION_PROMPT ≠ ""
      decide
    · rw [mapGet_mapSet_self]
  | none =>
    refine ⟨_, rfl, ?_, ?_, ?_⟩
    · rfl
    · show "Authentication required. Please authenticate to continue." ≠ ""
      decide
    · rw [mapGet_mapSet_self]

/-- Witness for C5's amended statement at the concrete 401 scenario. -/
theorem c5_unauthorized_invalidates_tokens_only_witness :
    ∃ resp, (runChat svcAuthed "s1" 5 env401).1 = Except.ok resp
      ∧ resp.authorizationRequired = true
      ∧ resp.text ≠ ""
      ∧ mapGet (runChat svcAuthed "s1" 5 env401).2.chatSessions "s1"
          = some { session := authedSessionData.session, client := authedSessionData.client,
                   oauthProvider := some (provWithUrl.saveTokens none), lastActivity := 5 } :=
  c5_unauthorized_invalidates_tokens_only svcAuthed "s1" 5 env401 authedSessionData
    provWithUrl { hasTools := true } "Request failed with status 401"
    rfl rfl rfl rfl (by decide)

/-- A session entry holding a chat instance but no OAuth provider. -/
def sdNoProvider : ChatSessionData :=
  { session := some { hasTools := true },
    client := some { connected := true, closeCount := 0 },
    oauthProvider := none, lastActivity := 0 }

/-- A service holding session `"s1"` with no provider. -/
def svcNoProvider : GeminiService :=
  { chatSessions := [("s1", sdNoProvider)], oauthClientId := none,
    oauthTokenEndpoint := none, sessionTimeout := 86400000 }

/-- Claim C9 counterexample: a 401 on a session with no pending
authorization URL available takes `handleAuthenticationError`'s
fallback path, and `runChat` replies with `authorizationRequired` set
but NO authorization URL — an authorization requirement surfaced as a
prompt without a clickable URL. -/
theorem c9_prompt_without_url_counterexample :
    (runChat svcNoProvider "s1" 5 env401).1
      = .ok { text := "Authentication required. Please authenticate to continue.",
              authorizationRequired := true, authorizationUrl := none } := rfl

/-- The property each authorization-required reply of `runChat` does
satisfy: a non-empty prompt text, and a URL except when no pending
authorization URL is available on the session's provider (in which
case the stored provider — when there is one — indeed has none). -/
def authReplyOk (resp : ChatResponse) (svc' : GeminiService) (sid : String) : Prop :=
  resp.authorizationRequired = true →
    resp.text ≠ ""
    ∧ (resp.authorizationUrl = none →
        ∀ d, mapGet svc'.chatSessions sid = some d →
        ∀ p, d.oauthProvider = some p → p.pendingAuthorizationUrl = none)

theorem handleAuthenticationError_reply (d : ChatSessionData) (b : Bool) :
    (handleAuthenticationError d b).1.authorizationRequired = true
    ∧ (handleAuthenticationError d b).1.text ≠ ""
    ∧ ((handleAuthenticationError d b).1.authorizationUrl = none →
       ∀ p, (handleAuthenticationError d b).2.oauthProvider = some p →
         p.pendingAuthorizationUrl = none) := by
  unfold handleAuthenticationError
  cases hdp : d.oauthProvider with
  | none =>
    refine ⟨rfl, ?_, ?_⟩
    · show "Authentication required. Please authenticate to continue." ≠ ""
      decide
    · intro _ p hp
      simp only at hp
      rw [hdp] at hp
      cases hp
  | some p0 =>
    cases b with
    | true =>
      simp only [if_true]
      cases hp' : (p0.saveTokens none).pendingAuthorizationUrl with
      | some url =>
        refine ⟨rfl, ?_, ?_⟩
        · show AUTHENTICATION_PROMPT ≠ ""
          decide
        · intro hu
          cases hu
      | none =>
        refine ⟨rfl, ?_, ?_⟩
        · show "Authentication required. Please authenticate to continue." ≠ ""
          decide
        · intro _ p hp
          simp only [Option.some.injEq] at hp
          rw [← hp]
          exact hp'
    | false =>
      simp only [Bool.false_eq_true, if_false]
      cases hp' : p0.pendingAuthorizationUrl with
      | some url =>
        refine ⟨rfl, ?_, ?_⟩
        · show AUTHENTICATION_PROMPT ≠ ""
          decide
        · intro hu
          cases hu
      | none =>
        refine ⟨rfl, ?_, ?_⟩
        · show "Authentication required. Please authenticate to continue." ≠ ""
          decide
        · intro _ p hp
          simp only [Option.some.injEq] at hp
          rw [← hp]
          exact hp'

theorem handleChatError_ok_reply (msg : String) (d : ChatSessionData)
    (resp : ChatResponse) (d' : ChatSessionData)
    (h : handleChatError msg d = (.ok resp, d')) :
    resp.authorizationRequired = true
    ∧ resp.text ≠ ""
    ∧ (resp.authorizationUrl = none →
       ∀ p, d'.oauthProvider = some p → p.pendingAuthorizationUrl = none) := by
  unfold handleChatError at h
  by_cases h1 : (classifyError msg).isUnauthorized = true
  · rw [if_pos h1] at h
    simp only [Prod.mk.injEq, Except.ok.injEq] at h
    obtain ⟨hr, hd⟩ := h
    rw [← hr, ← hd]
    exact handleAuthenticationError_reply d true
  · rw [if_neg h1] at h
    by_cases h2 : ((classifyError msg).isOAuthRelated && d.oauthProvider.isSome
        && d.session.isNone) = true
    · rw [if_pos h2] at h
      simp only [Prod.mk.injEq, Except.ok.injEq] at h
      obtain ⟨hr, hd⟩ := h
      rw [← hr, ← hd]
      exact handleAuthenticationError_reply d false
    · rw [if_neg h2] at h
      by_cases h3 : (classifyError msg).isGeminiOverload = true
      · rw [if_pos h3] at h
        simp only [Prod.mk.injEq] at h
        exact absurd h.1 (by simp)
      · rw [if_neg h3] at h
        by_cases h4 : (classifyError msg).isRateLimit = true
        · rw [if_pos h4] at h
          simp only [Prod.mk.injEq] at h
          exact absurd h.1 (by simp)
        · rw [if_neg h4] at h
          by_cases h5 : (classifyError msg).isBadRequest = true
          · rw [if_pos h5] at h
            simp only [Prod.mk.injEq] at h
            exact absurd h.1 (by simp)
          · rw [if_neg h5] at h
            simp only [Prod.mk.injEq] at h
            exact absurd h.1 (by simp)

theorem applyChatError_reply (svc : GeminiService) (sid msg : String)
    (d : ChatSessionData) (resp : ChatResponse) (svc' : GeminiService)
    (h : applyChatError svc sid msg d = (.ok resp, svc')) :
    authReplyOk resp svc' sid := by
  unfold applyChatError at h
  simp only [Prod.mk.injEq] at h
  obtain ⟨h1, h2⟩ := h
  have hh : handleChatError msg d = (.ok resp, (handleChatError msg d).2) := by
    rw [← h1]
  have spec := handleChatError_ok_reply msg d resp (handleChatError msg d).2 hh
  intro _
  refine ⟨spec.2.1, ?_⟩
  intro hu d2 hd2 p hp
  rw [← h2] at hd2
  simp only at hd2
  rw [mapGet_mapSet_self] at hd2
  have hd2' := Option.some.inj hd2
  rw [← hd2'] at hp
  exact spec.2.2 hu p hp

theorem runChatSend_reply (svc : GeminiService) (sid : String) (env : RunChatEnv)
    (d : ChatSessionData) (resp : ChatResponse) (svc' : GeminiService)
    (h : runChatSend svc sid env d = (.ok resp, svc')) :
    authReplyOk resp svc' sid := by
  unfold runChatSend at h
  cases hs : env.send with
  | reply t =>
    rw [hs] at h
    simp only [Prod.mk.injEq, Except.ok.injEq] at h
    intro hreq
    rw [← h.1] at hreq
    cases hreq
  | failure msg =>
    rw [hs] at h
    exact applyChatError_reply svc sid msg d resp svc' h

theorem createChatSession_oauthRequired_message (svc : GeminiService) (sid : String)
    (now : Int) (so co : ConnectOutcome) (url msg : String) (svc2 : GeminiService)
    (h : createChatSession svc sid now so co = (.oauthRequired url msg, svc2)) :
    msg = WELCOME_MESSAGE := by
  unfold createChatSession at h
  split at h
  · split at h
    · split at h
      · unfold buildOAuthRequiredResponse at h
        simp only [Prod.mk.injEq, CreateChatSessionResult.oauthRequired.injEq] at h
        exact h.1.2.symm
      · unfold buildChatSessionResponse at h
        simp only [Prod.mk.injEq] at h
        cases h.1
  · unfold buildChatSessionResponse at h
    simp only [Prod.mk.injEq] at h
    cases h.1

theorem runChatWithSession_reply (svc : GeminiService) (sid : String) (now : Int)
    (env : RunChatEnv) (d : ChatSessionData) (resp : ChatResponse) (svc' : GeminiService)
    (h : runChatWithSession svc sid now env d = (.ok resp, svc')) :
    authReplyOk resp svc' sid := by
  unfold runChatWithSession at h
  split at h
  · exact runChatSend_reply _ _ _ _ _ _ h
  · split at h
    · exact runChatSend_reply _ _ _ _ _ _ h
    · split at h
      · split at h
        · rename_i st p2 hok
          simp only [Prod.mk.injEq, Except.ok.injEq] at h
          obtain ⟨hr, hs⟩ := h
          intro _
          constructor
          · rw [← hr]
            show AUTHENTICATION_PROMPT ≠ ""
            decide
          · intro hu
            rw [← hr] at hu
            simp only at hu
            rw [hu] at hok
            simp [truthyStr] at hok
        · exact applyChatError_reply _ _ _ _ _ _ h
    · exact applyChatError_reply _ _ _ _ _ _ h

/-- Claim C9 (amended): every reply `runChat` produces on an
authorization-required path carries a non-empty human-readable prompt
text; it carries an authorization URL whenever one is available, and
when the URL is absent (the `handleAuthenticationError` fallback) the
session's stored provider — if any — indeed holds no pending
authorization URL to surface. -/
theorem c9_auth_replies_have_prompt (svc : GeminiService) (sid : String) (now : Int)
    (env : RunChatEnv) (resp : ChatResponse) (svc' : GeminiService)
    (h : runChat svc sid now env = (.ok resp, svc')) :
    authReplyOk resp svc' sid := by
  unfold runChat at h
  split at h
  · exact runChatWithSession_reply _ _ _ _ _ _ _ h
  · split at h
    · rename_i svc1 url msg svc2 hc
      have hmsg := createChatSession_oauthRequired_message _ _ _ _ _ _ _ _ hc
      simp only [Prod.mk.injEq, Except.ok.injEq] at h
      obtain ⟨hr, hs⟩ := h
      intro _
      constructor
      · rw [← hr]
        simp only
        rw [hmsg]
        decide
      · intro hu
        rw [← hr] at hu
        simp at hu
    · split at h
      · simp at h
      · exact runChatWithSession_reply _ _ _ _ _ _ _ h

/-- A `runChat` environment whose initial OAuth status check fails and
records an authorization URL. -/
def envOAuthNeeded : RunChatEnv :=
  { createStatusOutcome := .failure (some "https://sso.example/authorize?x=1")
    createConnectOutcome := .success
    reconnectOutcome := .success
    reconnectStatusOutcome := .success
    send := .reply "hello" }

/-- Witness for C9's amended statement: the first message to a fresh
session with OAuth required yields the welcome prompt plus the URL. -/
theorem c9_auth_replies_have_prompt_witness :
    authReplyOk
      { text := WELCOME_MESSAGE, authorizationRequired := true,
        authorizationUrl := some "https://sso.example/authorize?x=1" }
      (runChat svcEmptyOAuth "s2" 0 envOAuthNeeded).2 "s2" :=
  c9_auth_replies_have_prompt svcEmptyOAuth "s2" 0 envOAuthNeeded _ _ rfl

/-- Claim C1 counterexample: one `createChatSession` call on a service
with no OAuth configured and an unreachable backend stores an entry in
the `authenticated` shape (chat instance present) whose client is
`undefined` and whose provider is absent — violating the claimed
invariant that an authenticated session has `hasValidTokens() = true`
and a non-null connected client. -/
theorem c1_invariant_counterexample :
    mapGet (createChatSession svcEmptyNoOAuth "s1" 0
        (.failure none) (.failure none)).2.chatSessions "s1"
      = some { session := some { hasTools := false }, client := none,
               oauthProvider := none, lastActivity := 0 }
    ∧ checkClaimSessionInvariant
        { session := some { hasTools := false }, client := none,
          oauthProvider := none, lastActivity := 0 } = false := ⟨rfl, rfl⟩

theorem createChatSession_mapOk (svc : GeminiService) (sid : String) (now : Int)
    (so co : ConnectOutcome) (h : sessionMapOk svc.chatSessions = true) :
    sessionMapOk (createChatSession svc sid now so co).2.chatSessions = true := by
  unfold createChatSession
  split
  · split
    · split
      · exact sessionMapOk_mapSet h rfl
      · exact sessionMapOk_mapSet h rfl
  · exact sessionMapOk_mapSet h rfl

theorem getChatSession_mapOk (svc : GeminiService) (sid : String) (now : Int)
    (h : sessionMapOk svc.chatSessions = true) :
    sessionMapOk (getChatSession svc sid now).2.chatSessions = true
    ∧ (∀ d, (getChatSession svc sid now).1 = some d → checkPendingHalf d = true) := by
  unfold getChatSession
  cases hg : mapGet svc.chatSessions sid with
  | none =>
    refine ⟨h, ?_⟩
    intro d hd
    cases hd
  | some d0 =>
    have hd0 : checkPendingHalf d0 = true := sessionMapOk_mem h (mapGet_mem hg)
    refine ⟨?_, ?_⟩
    · exact sessionMapOk_mapSet h (by rw [checkPendingHalf_set_lastActivity]; exact hd0)
    · intro d hd
      simp only [Option.some.injEq] at hd
      rw [← hd, checkPendingHalf_set_lastActivity]
      exact hd0

theorem handleAuthenticationError_fields (d : ChatSessionData) (b : Bool) :
    (handleAuthenticationError d b).2.session = d.session
    ∧ (handleAuthenticationError d b).2.client = d.client := by
  unfold handleAuthenticationError
  split
  · split
    · exact ⟨rfl, rfl⟩
    · exact ⟨rfl, rfl⟩
  · exact ⟨rfl, rfl⟩

theorem handleChatError_fields (msg : String) (d : ChatSessionData) :
    (handleChatError msg d).2.session = d.session
    ∧ (handleChatError msg d).2.client = d.client := by
  unfold handleChatError
  split
  · exact handleAuthenticationError_fields d true
  · split
    · exact handleAuthenticationError_fields d false
    · split
      · exact ⟨rfl, rfl⟩
      · split
        · exact ⟨rfl, rfl⟩
        · split
          · exact ⟨rfl, rfl⟩
          · exact ⟨rfl, rfl⟩

theorem checkPendingHalf_congr {d1 d2 : ChatSessionData}
    (hs : d1.session = d2.session) (hc : d1.client = d2.client) :
    checkPendingHalf d1 = checkPendingHalf d2 := by
  unfold checkPendingHalf
  rw [hs, hc]

theorem applyChatError_mapOk (svc : GeminiService) (sid msg : String)
    (d : ChatSessionData) (h : sessionMapOk svc.chatSessions = true)
    (hd : checkPendingHalf d = true) :
    sessionMapOk (applyChatError svc sid msg d).2.chatSessions = true := by
  unfold applyChatError
  apply sessionMapOk_mapSet h
  rw [checkPendingHalf_congr (handleChatError_fields msg d).1
    (handleChatError_fields msg d).2]
  exact hd

theorem runChatSend_mapOk (svc : GeminiService) (sid : String) (env : RunChatEnv)
    (d : ChatSessionData) (h : sessionMapOk svc.chatSessions = true)
    (hd : checkPendingHalf d = true) :
    sessionMapOk (runChatSend svc sid env d).2.chatSessions = true := by
  unfold runChatSend
  split
  · exact h
  · exact applyChatError_mapOk _ _ _ _ h hd

theorem runChatWithSession_mapOk (svc : GeminiService) (sid : String) (now : Int)
    (env : RunChatEnv) (d : ChatSessionData)
    (h : sessionMapOk svc.chatSessions = true) (hd : checkPendingHalf d = true) :
    sessionMapOk (runChatWithSession svc sid now env d).2.chatSessions = true := by
  unfold runChatWithSession
  split
  · exact runChatSend_mapOk _ _ _ _ h hd
  · split
    · apply runChatSend_mapOk
      · apply sessionMapOk_mapSet
        · apply sessionMapOk_mapSet h
          rw [checkPendingHalf_set_provider]
          exact hd
        · rfl
      · rfl
    · split
      · split
        · apply sessionMapOk_mapSet
          · apply sessionMapOk_mapSet h
            rw [checkPendingHalf_set_provider]
            exact hd
          · rw [checkPendingHalf_set_provider]
            exact hd
        · apply applyChatError_mapOk
          · apply sessionMapOk_mapSet
            · apply sessionMapOk_mapSet h
              rw [checkPendingHalf_set_provider]
              exact hd
            · rw [checkPendingHalf_set_provider]
              exact hd
          · rw [checkPendingHalf_set_provider]
            exact hd
    · apply applyChatError_mapOk
      · apply sessionMapOk_mapSet h
        rw [checkPendingHalf_set_provider]
        exact hd
      · rw [checkPendingHalf_set_provider]
        exact hd

theorem runChat_mapOk (svc : GeminiService) (sid : String) (now : Int)
    (env : RunChatEnv) (h : sessionMapOk svc.chatSessions = true) :
    sessionMapOk (runChat svc sid now env).2.chatSessions = true := by
  unfold runChat
  split
  · rename_i d svc1 heq
    have h1 := (getChatSession_mapOk svc sid now h).1
    have h2 := (getChatSession_mapOk svc sid now h).2 d (by rw [heq])
    rw [heq] at h1
    exact runChatWithSession_mapOk _ _ _ _ _ h1 h2
  · rename_i svc1 heq
    have h1 : sessionMapOk svc1.chatSessions = true := by
      have := (getChatSession_mapOk svc sid now h).1
      rw [heq] at this
      exact this
    split
    · rename_i url msg svc2 heq2
      have h2 := createChatSession_mapOk svc1 sid now env.createStatusOutcome
        env.createConnectOutcome h1
      rw [heq2] at h2
      exact h2
    · rename_i c svc2 heq2
      have h2 : sessionMapOk svc2.chatSessions = true := by
        have := createChatSession_mapOk svc1 sid now env.createStatusOutcome
          env.createConnectOutcome h1
        rw [heq2] at this
        exact this
      split
      · rename_i svc3 heq3
        have h3 := (getChatSession_mapOk svc2 sid now h2).1
        rw [heq3] at h3
        exact h3
      · rename_i d2 svc3 heq3
        have h3 := (getChatSession_mapOk svc2 sid now h2).1
        have h4 := (getChatSession_mapOk svc2 sid now h2).2 d2 (by rw [heq3])
        rw [heq3] at h3
        exact runChatWithSession_mapOk _ _ _ _ _ h3 h4

theorem completeOAuthFlow_mapOk (svc : GeminiService) (code stateP : String)
    (p : AuthorizationCodeOAuthProvider) (resp : TokenHttpResponse)
    (rc : ConnectOutcome) (now : Int) (h : sessionMapOk svc.chatSessions = true) :
    sessionMapOk (completeOAuthFlow svc code stateP p resp rc now).2.1.chatSessions
      = true := by
  unfold completeOAuthFlow
  split
  · exact h
  · split
    · exact sessionMapOk_mapSetProvider _ _ h
    · split
      · exact sessionMapOk_mapSetProvider _ _ h
      · split
        exact sessionMapOk_mapSet (sessionMapOk_mapSetProvider _ _ h) rfl

theorem asynchandleOAuthCallback_mapOk (svc : GeminiService)
    (code stateP err desc : Option String) (resp : TokenHttpResponse)
    (rc : ConnectOutcome) (now : Int) (h : sessionMapOk svc.chatSessions = true) :
    sessionMapOk
      (asynchandleOAuthCallback svc code stateP err desc resp rc now).2.1.chatSessions
      = true := by
  unfold asynchandleOAuthCallback
  split
  · split
    · by_cases hsp : truthyStr stateP = true
      · rw [if_pos hsp]
        exact sessionMapOk_mapSetProvider _ _ h
      · rw [if_neg hsp]
        exact h
    · exact h
  · split
    · exact h
    · split
      · exact h
      · exact completeOAuthFlow_mapOk _ _ _ _ _ _ _ h


/-- Claim C1 (amended): only the `oauth_pending` half of the claimed
invariant is maintained, and every operation preserves it — a session
stored without a chat instance never holds a connected client.  The
`authenticated` half fails on the code (see the counterexample): an
entry with a chat instance may lack a connected client and valid
tokens, because `buildChatSessionResponse` stores the chat session even
when the connection failed or no OAuth provider exists. -/
theorem c1_pending_half_invariant_preserved (svc : GeminiService)
    (h : sessionMapOk svc.chatSessions = true) :
    (∀ sid now so co,
        sessionMapOk (createChatSession svc sid now so co).2.chatSessions = true)
    ∧ (∀ sid now env, sessionMapOk (runChat svc sid now env).2.chatSessions = true)
    ∧ (∀ code stateP err desc resp rc now,
        sessionMapOk
          (asynchandleOAuthCallback svc code stateP err desc resp rc now).2.1.chatSessions
          = true)
    ∧ (∀ now, sessionMapOk (performSessionCleanup svc now).1.chatSessions = true) :=
  ⟨fun sid now so co => createChatSession_mapOk svc sid now so co h,
   fun sid now env => runChat_mapOk svc sid now env h,
   fun code stateP err desc resp rc now =>
     asynchandleOAuthCallback_mapOk svc code stateP err desc resp rc now h,
   fun now => sessionMapOk_filter _ h⟩

/-- Witness for C1's amended invariant at concrete operations on the
empty (trivially invariant-satisfying) service. -/
theorem c1_pending_half_invariant_preserved_witness :
    sessionMapOk (createChatSession svcEmptyOAuth "s1" 0
        (ConnectOutcome.failure (some "https://sso.example/authorize?x=1"))
        ConnectOutcome.success).2.chatSessions = true
    ∧ sessionMapOk (runChat svcEmptyOAuth "s1" 0 envOAuthNeeded).2.chatSessions = true
    ∧ sessionMapOk (performSessionCleanup svcEmptyOAuth 0).1.chatSessions = true :=
  ⟨(c1_pending_half_invariant_preserved svcEmptyOAuth rfl).1 "s1" 0
      (ConnectOutcome.failure (some "https://sso.example/authorize?x=1"))
      ConnectOutcome.success,
   (c1_pending_half_invariant_preserved svcEmptyOAuth rfl).2.1 "s1" 0 envOAuthNeeded,
   (c1_pending_half_invariant_preserved svcEmptyOAuth rfl).2.2.2 0⟩
